import Mathlib

/-!
Shallow embedding of the BLEScaleQt application (src/mainwindow.h,
src/mainwindow.cpp): a Qt GUI that scans for BLE devices, connects,
enumerates GATT services/characteristics and displays their values.

Qt strings (QString) are modelled as lists of characters (`Str`); QByteArray
as a list of byte values (`Bytes`); the widgets, maps and buttons of
`MainWindow` as fields of `MainWindowState`; message boxes shown and requests
issued to the Bluetooth stack are recorded in append-only trace fields
(`dialogs`, `requests`).  Each Qt slot of `MainWindow` becomes a pure state
transformer taking the stack-supplied event data as arguments.
-/

namespace BLEScale

/-- QString, modelled as its sequence of characters. -/
abbrev Str := List Char

/-- Coercion from a Lean string literal to the QString model. -/
def strOf (s : String) : Str := s.data

/-- QByteArray, modelled as its sequence of byte values. -/
abbrev Bytes := List Nat

/-- QString::contains(substring): some contiguous run of `s` equals `pat`. -/
def strContains (s pat : Str) : Bool :=
  match s with
  | [] => pat.isEmpty
  | _ :: rest => pat.isPrefixOf s || strContains rest pat

/-- QString::toUpper (restricted to the characters the app produces). -/
def strUpper (s : Str) : Str := s.map Char.toUpper

/-- QString::split(sep) with a one-character separator (Qt keeps empty parts). -/
def splitOnChar (sep : Char) (s : Str) : List Str :=
  match s with
  | [] => [[]]
  | c :: rest =>
    let r := splitOnChar sep rest
    if c = sep then [] :: r
    else
      match r with
      | [] => [[c]]
      | g :: gs => (c :: g) :: gs

/-- Lowercase hex digit of a value below 16, as produced by QByteArray::toHex. -/
def hexDigit (n : Nat) : Char := if n < 10 then Char.ofNat (48 + n) else Char.ofNat (87 + n)

/-- Two lowercase hex digits of one byte (QByteArray::toHex, per byte). -/
def byteToHex (b : Nat) : Str := [hexDigit ((b / 16) % 16), hexDigit (b % 16)]

/-- QByteArray::toHex: lowercase hex of the whole byte array. -/
def bytesToHex (bs : Bytes) : Str := (bs.map byteToHex).flatten

/-- QBluetoothUuid, modelled by its canonical textual form (uuid.toString). -/
abbrev Uuid := Str

/-- Lexicographic order on strings: the order used by operator< on
QBluetoothUuid in the map-key comparison. -/
def strLt (a b : Str) : Bool :=
  match a, b with
  | [], [] => false
  | [], _ :: _ => true
  | _ :: _, [] => false
  | x :: xs, y :: ys => x < y || (x = y && strLt xs ys)

-- QLowEnergyCharacteristic::PropertyType flag values.
def propBroadcasting : Nat := 1
def propRead : Nat := 2
def propWriteNoResponse : Nat := 4
def propWrite : Nat := 8
def propNotify : Nat := 16
def propIndicate : Nat := 32

/-- QLowEnergyCharacteristic: uuid, name, property flags, and the validity of
its ClientCharacteristicConfiguration descriptor (the only descriptor the app
touches). -/
structure Characteristic where
  uuid : Uuid
  name : Str
  properties : Nat
  cccdValid : Bool
  deriving DecidableEq

/-- `properties() & p` is nonzero. -/
def hasProp (c : Characteristic) (p : Nat) : Bool := Nat.land c.properties p != 0

/-- `properties() & (QLowEnergyCharacteristic::Notify | QLowEnergyCharacteristic::Indicate)`
is nonzero. -/
def hasNotifyOrIndicate (c : Characteristic) : Bool :=
  Nat.land c.properties (Nat.lor propNotify propIndicate) != 0

/-- The operator< defined in mainwindow.h for QLowEnergyCharacteristic map
keys: `return lhs.uuid() < rhs.uuid();` — it compares by UUID only. -/
def charLt (lhs rhs : Characteristic) : Bool := strLt lhs.uuid rhs.uuid

/-- Key equivalence induced by the strict weak order `charLt`, as used by
QMap (neither key is less than the other). -/
def charEquiv (a b : Characteristic) : Bool := !charLt a b && !charLt b a

/-- QMap<QLowEnergyCharacteristic, QListWidgetItem*>: association list from
characteristics to list-item ids, with key equivalence `charEquiv`. -/
abbrev CharMap := List (Characteristic × Nat)

/-- QMap lookup (`value`): the value at the first key equivalent to `k`. -/
def charMapLookup (m : CharMap) (k : Characteristic) : Option Nat :=
  match m with
  | [] => none
  | (q, v) :: rest => if charEquiv k q then some v else charMapLookup rest k

/-- QMap::contains for the characteristic-item map. -/
def charMapContains (m : CharMap) (k : Characteristic) : Bool :=
  (charMapLookup m k).isSome

/-- QMap::insert for the characteristic-item map: replaces the value at an
equivalent key (keeping the stored key), otherwise adds a new binding. -/
def charMapInsert (m : CharMap) (k : Characteristic) (v : Nat) : CharMap :=
  match m with
  | [] => [(k, v)]
  | (q, w) :: rest =>
    if charEquiv k q then (q, v) :: rest
    else (q, w) :: charMapInsert rest k v

/-- QLowEnergyService::ServiceState (the values the app distinguishes). -/
inductive ServiceState where
  | InvalidService
  | RemoteService
  | RemoteServiceDiscovering
  | RemoteServiceDiscovered
  | LocalService
  deriving DecidableEq

/-- A QLowEnergyService object as observed by the app: its UUID, its state and
its characteristics. -/
structure ServiceObj where
  serviceUuid : Uuid
  svcState : ServiceState
  characteristics : List Characteristic
  deriving DecidableEq

/-- QMap<QBluetoothUuid, QLowEnergyService*> (m_services). -/
abbrev ServiceMap := List (Uuid × ServiceObj)

def svcMapLookup (m : ServiceMap) (k : Uuid) : Option ServiceObj :=
  match m with
  | [] => none
  | (q, v) :: rest => if k = q then some v else svcMapLookup rest k

def svcMapContains (m : ServiceMap) (k : Uuid) : Bool := (svcMapLookup m k).isSome

def svcMapInsert (m : ServiceMap) (k : Uuid) (v : ServiceObj) : ServiceMap :=
  match m with
  | [] => [(k, v)]
  | (q, w) :: rest =>
    if k = q then (q, v) :: rest
    else (q, w) :: svcMapInsert rest k v

/-- QLowEnergyController::ControllerState. -/
inductive ControllerState where
  | UnconnectedState
  | ConnectingState
  | ConnectedState
  | DiscoveringState
  | DiscoveredState
  | ClosingState
  | AdvertisingState
  deriving DecidableEq

/-- QLowEnergyController::Error. -/
inductive ControllerError where
  | NoError
  | UnknownError
  | UnknownRemoteDeviceError
  | NetworkError
  | InvalidBluetoothAdapterError
  | ConnectionError
  | AdvertisingError
  | RemoteHostClosedError
  | AuthorizationError
  | MissingPermissionsError
  deriving DecidableEq

/-- QBluetoothDeviceDiscoveryAgent::Error. -/
inductive ScanError where
  | NoError
  | InputOutputError
  | PoweredOffError
  | InvalidBluetoothAdapterError
  | UnsupportedPlatformError
  | UnsupportedDiscoveryMethod
  | LocationServiceTurnedOffError
  | MissingPermissionsError
  | UnknownError
  deriving DecidableEq

/-- QLowEnergyService::ServiceError. -/
inductive ServiceError where
  | NoError
  | OperationError
  | CharacteristicWriteError
  | DescriptorWriteError
  | UnknownError
  | CharacteristicReadError
  | DescriptorReadError
  deriving DecidableEq

/-- The integer value of a ServiceError, as printed by `.arg(error)`. -/
def serviceErrorCode (e : ServiceError) : Nat :=
  match e with
  | .NoError => 0
  | .OperationError => 1
  | .CharacteristicWriteError => 2
  | .DescriptorWriteError => 3
  | .UnknownError => 4
  | .CharacteristicReadError => 5
  | .DescriptorReadError => 6

/-- The QLowEnergyController as the app observes it: its state and the
services for which the stack can create service objects. -/
structure Controller where
  ctrlState : ControllerState
  services : List ServiceObj
  deriving DecidableEq

/-- QLowEnergyController::createServiceObject: the stack returns a service
object for the UUID, or null. -/
def createServiceObject (c : Controller) (u : Uuid) : Option ServiceObj :=
  c.services.find? (fun s => s.serviceUuid == u)

-- QBluetoothDeviceInfo::CoreConfiguration flag values.
def UnknownCoreConfiguration : Nat := 0
def LowEnergyCoreConfiguration : Nat := 1
def BaseRateCoreConfiguration : Nat := 2
def BaseRateAndLowEnergyCoreConfiguration : Nat := 3

/-- QBluetoothDeviceInfo. -/
structure DeviceInfo where
  name : Str
  address : Str
  coreConfigurations : Nat
  valid : Bool
  deriving DecidableEq

/-- A default-constructed QBluetoothDeviceInfo (isValid() is false). -/
def invalidDevice : DeviceInfo := ⟨[], [], 0, false⟩

/-- One QListWidgetItem: an identity and its displayed text. -/
structure ListItem where
  id : Nat
  text : Str
  deriving DecidableEq

/-- The kind of QMessageBox shown. -/
inductive DialogKind where
  | critical
  | warning
  | information
  deriving DecidableEq

/-- One message box shown to the user. -/
structure Dialog where
  kind : DialogKind
  title : Str
  text : Str
  deriving DecidableEq

/-- A request issued to the Bluetooth stack. -/
inductive Request where
  | readCharacteristic (svc : Uuid) (c : Characteristic)
  | writeDescriptor (svc : Uuid) (c : Characteristic) (value : Bytes)
  | discoverDetails (svc : Uuid)
  | discoverServices
  | connectDevice (addr : Str)
  | startDeviceDiscovery
  deriving DecidableEq

/-- The state of MainWindow: its widgets, buttons, member fields, plus the
traces of message boxes shown and stack requests issued. -/
structure MainWindowState where
  leController : Option Controller
  m_currentDevice : DeviceInfo
  m_serviceUuids : List Uuid
  m_services : ServiceMap
  m_characteristicItems : CharMap
  m_currentService : Option Uuid
  deviceList : List ListItem
  characteristicList : List ListItem
  nextItemId : Nat
  scanButtonEnabled : Bool
  connectButtonEnabled : Bool
  readCharButtonEnabled : Bool
  statusLabel : Str
  dialogs : List Dialog
  requests : List Request
  deriving DecidableEq

/-- The state right after the MainWindow constructor: connect and read
buttons disabled, everything empty. -/
def initState : MainWindowState where
  leController := none
  m_currentDevice := invalidDevice
  m_serviceUuids := []
  m_services := []
  m_characteristicItems := []
  m_currentService := none
  deviceList := []
  characteristicList := []
  nextItemId := 0
  scanButtonEnabled := true
  connectButtonEnabled := false
  readCharButtonEnabled := false
  statusLabel := strOf "Status: Idle"
  dialogs := []
  requests := []

/-- Decimal rendering of a number, as QString::arg(int) prints it. -/
def natToStr (n : Nat) : Str := Nat.toDigits 10 n

/-- Append one item to the device/service list widget (QListWidget::addItem). -/
def addDeviceItem (st : MainWindowState) (t : Str) : MainWindowState :=
  { st with deviceList := st.deviceList ++ [⟨st.nextItemId, t⟩]
          , nextItemId := st.nextItemId + 1 }

/-- Record one message box. -/
def showDialog (st : MainWindowState) (d : Dialog) : MainWindowState :=
  { st with dialogs := st.dialogs ++ [d] }

/-- The text of a device entry built in MainWindow::deviceDiscovered:
name (or "(Unknown BLE Device)" when empty) plus the address in parens. -/
def deviceDisplayText (d : DeviceInfo) : Str :=
  (if d.name.isEmpty then strOf "(Unknown BLE Device)" else d.name)
    ++ strOf " (" ++ d.address ++ strOf ")"

/-- MainWindow::deviceDiscovered: list the device iff its core configurations
include the Low Energy configuration. -/
def deviceDiscovered (st : MainWindowState) (d : DeviceInfo) : MainWindowState :=
  if Nat.land d.coreConfigurations LowEnergyCoreConfiguration != 0 then
    addDeviceItem st (deviceDisplayText d)
  else st

/-- MainWindow::startScan. -/
def startScan (st : MainWindowState) : MainWindowState :=
  { st with deviceList := []
          , characteristicList := []
          , statusLabel := strOf "Status: Scanning..."
          , scanButtonEnabled := false
          , connectButtonEnabled := false
          , readCharButtonEnabled := false
          , m_serviceUuids := []
          , m_services := []
          , m_characteristicItems := []
          , m_currentService := none
          , leController := none
          , requests := st.requests ++ [Request.startDeviceDiscovery] }

/-- MainWindow::scanFinished. -/
def scanFinished (st : MainWindowState) : MainWindowState :=
  let st := { st with statusLabel := strOf "Status: Scan Finished."
                    , scanButtonEnabled := true }
  if st.deviceList.isEmpty then
    { addDeviceItem st (strOf "No Bluetooth devices found.") with connectButtonEnabled := false }
  else
    { st with connectButtonEnabled := true }

/-- The error text chosen by MainWindow::scanError. -/
def scanErrorText (e : ScanError) : Str :=
  match e with
  | .InputOutputError => strOf "I/O Error (check permissions/hardware)."
  | .PoweredOffError => strOf "Bluetooth is powered off."
  | .MissingPermissionsError => strOf "Missing Bluetooth permissions."
  | _ => strOf "Unknown error."

/-- MainWindow::scanError. -/
def scanError (st : MainWindowState) (e : ScanError) : MainWindowState :=
  showDialog
    { st with statusLabel := strOf "Status: Scan Error!"
            , scanButtonEnabled := true
            , connectButtonEnabled := false
            , readCharButtonEnabled := false }
    ⟨DialogKind.critical, strOf "Bluetooth Error", scanErrorText e⟩

/-- `selectedText.section('(', -1).remove(')')` in MainWindow::connectToDevice:
the text after the last open paren, with the close paren removed. -/
def parseAddress (s : Str) : Str :=
  ((splitOnChar '(' s).getLastD []).filter (fun c => c != ')')

/-- The loop over discoveredDevices(): the first device whose address matches,
or the default-constructed (invalid) device. -/
def findDevice (devs : List DeviceInfo) (addr : Str) : DeviceInfo :=
  match devs.find? (fun d => d.address == addr) with
  | some d => d
  | none => invalidDevice

/-- MainWindow::connectToDevice.  The selection of the device list is given by
`selectedCount`/`currentText`; `discoveredDevices` is the discovery agent's
device list; `createCentral` is the stack's answer to
QLowEnergyController::createCentral (null modelled as `none`). -/
def connectToDevice (st : MainWindowState) (selectedCount : Nat) (currentText : Str)
    (discoveredDevices : List DeviceInfo) (createCentral : Option Controller) :
    MainWindowState :=
  if selectedCount = 0 then
    showDialog st ⟨DialogKind.warning, strOf "No Device Selected",
      strOf "Please select a device from the list to connect."⟩
  else
    let deviceAddress := parseAddress currentText
    let dev := findDevice discoveredDevices deviceAddress
    let st := { st with m_currentDevice := dev }
    if dev.valid = false then
      showDialog st ⟨DialogKind.critical, strOf "Error",
        strOf "Could not find selected device information."⟩
    else
      let st := { st with leController := none
                        , m_services := []
                        , m_serviceUuids := []
                        , m_characteristicItems := []
                        , m_currentService := none
                        , characteristicList := [] }
      match createCentral with
      | none =>
        showDialog { st with statusLabel := strOf "Status: Controller creation failed." }
          ⟨DialogKind.critical, strOf "Error", strOf "Failed to create BLE controller."⟩
      | some ctrl =>
        { st with leController := some ctrl
                , statusLabel := strOf "Status: Connecting to " ++ dev.name ++ strOf "..."
                , requests := st.requests ++ [Request.connectDevice dev.address]
                , connectButtonEnabled := false
                , scanButtonEnabled := false }

/-- MainWindow::deviceConnected. -/
def deviceConnected (st : MainWindowState) : MainWindowState :=
  { st with statusLabel := strOf "Status: Connected! Discovering services..."
          , requests := st.requests ++ [Request.discoverServices] }

/-- MainWindow::deviceDisconnected: tear the session down and return to the
scan-ready state. -/
def deviceDisconnected (st : MainWindowState) : MainWindowState :=
  { st with statusLabel := strOf "Status: Disconnected."
          , connectButtonEnabled := true
          , scanButtonEnabled := true
          , readCharButtonEnabled := false
          , leController := none
          , m_services := []
          , m_serviceUuids := []
          , m_characteristicItems := []
          , m_currentService := none
          , deviceList := []
          , characteristicList := [] }

/-- MainWindow::serviceDiscovered. -/
def serviceDiscovered (st : MainWindowState) (u : Uuid) : MainWindowState :=
  { st with m_serviceUuids := st.m_serviceUuids ++ [u] }

/-- MainWindow::serviceDiscoveryFinished: replace the device list by the list
of discovered services. -/
def serviceDiscoveryFinished (st : MainWindowState) : MainWindowState :=
  let st := { st with statusLabel := strOf "Status: Services Discovered. Select a service."
                    , deviceList := [] }
  let st := addDeviceItem st (strOf "--- Discovered Services ---")
  let st :=
    if st.m_serviceUuids.isEmpty then
      addDeviceItem st (strOf "No services found on this device.")
    else
      st.m_serviceUuids.foldl addDeviceItem st
  { st with connectButtonEnabled := false, scanButtonEnabled := true }

/-- The error text chosen by MainWindow::controllerError. -/
def controllerErrorText (e : ControllerError) : Str :=
  match e with
  | .UnknownError => strOf "Unknown error."
  | .InvalidBluetoothAdapterError => strOf "Invalid Bluetooth adapter."
  | .ConnectionError => strOf "Connection error."
  | .AdvertisingError => strOf "Advertising error."
  | .RemoteHostClosedError => strOf "Remote host closed connection."
  | _ => strOf "Other error."

/-- MainWindow::controllerError: show the mapped error text and tear the
session down. -/
def controllerError (st : MainWindowState) (e : ControllerError) : MainWindowState :=
  showDialog
    { st with statusLabel := strOf "Status: Controller Error!"
            , connectButtonEnabled := true
            , scanButtonEnabled := true
            , readCharButtonEnabled := false
            , leController := none
            , m_services := []
            , m_serviceUuids := []
            , m_characteristicItems := []
            , m_currentService := none
            , deviceList := []
            , characteristicList := [] }
    ⟨DialogKind.critical, strOf "BLE Controller Error", controllerErrorText e⟩

/-- The characteristic description built when characteristics are listed:
`"  Char: %1 (%2) - Props: %3"`. -/
def charInfoText (c : Characteristic) : Str :=
  strOf "  Char: " ++ (if c.name.isEmpty then c.uuid else c.name)
    ++ strOf " (" ++ c.uuid ++ strOf ") - Props: " ++ natToStr c.properties

/-- QByteArray::fromHex("0100"), the CCCD value enabling notifications. -/
def cccdEnableNotifications : Bytes := [1, 0]

/-- The per-characteristic body of the loops in serviceDetailsDiscovered and
in the cached branch of onServiceSelected: add a list item, store it in the
characteristic-item map, request a read when readable, and enable
notifications when the CCCD is valid. -/
def perCharacteristic (svcUuid : Uuid) (st : MainWindowState) (c : Characteristic) :
    MainWindowState :=
  let item : ListItem := ⟨st.nextItemId, charInfoText c⟩
  let st := { st with characteristicList := st.characteristicList ++ [item]
                    , m_characteristicItems := charMapInsert st.m_characteristicItems c item.id
                    , nextItemId := st.nextItemId + 1 }
  let st :=
    if hasProp c propRead then
      { st with requests := st.requests ++ [Request.readCharacteristic svcUuid c] }
    else st
  if hasNotifyOrIndicate c && c.cccdValid then
    { st with requests := st.requests ++ [Request.writeDescriptor svcUuid c cccdEnableNotifications] }
  else st

/-- `(uuidString).split(" ").first()`: the UUID extracted from the selected
service-list text in MainWindow::onServiceSelected. -/
def extractUuid (s : Str) : Uuid := (splitOnChar ' ' s).headD []

/-- MainWindow::onServiceSelected.  The selection of the device/service list
is given by `selectedCount`/`currentText`. -/
def onServiceSelected (st : MainWindowState) (selectedCount : Nat) (currentText : Str) :
    MainWindowState :=
  match st.leController with
  | none => st
  | some ctrl =>
    if selectedCount = 0 || ctrl.ctrlState != ControllerState.DiscoveredState then st
    else
      let selectedUuid := extractUuid currentText
      match svcMapLookup st.m_services selectedUuid with
      | some svc =>
        let st := { st with m_currentService := some selectedUuid }
        if svc.svcState = ServiceState.RemoteServiceDiscovered then
          let st := { st with characteristicList := [], m_characteristicItems := [] }
          svc.characteristics.foldl (perCharacteristic svc.serviceUuid) st
        else st
      | none =>
        match createServiceObject ctrl selectedUuid with
        | some svc =>
          { st with m_services := svcMapInsert st.m_services selectedUuid svc
                  , m_currentService := some selectedUuid
                  , characteristicList := []
                  , m_characteristicItems := []
                  , statusLabel := strOf "Status: Discovering characteristics for "
                      ++ currentText ++ strOf "..."
                  , requests := st.requests ++ [Request.discoverDetails selectedUuid] }
        | none =>
          { st with statusLabel := strOf "Status: Failed to create service object."
                  , m_currentService := none }

/-- The itemSelectionChanged lambda on deviceListWidget in the MainWindow
constructor: gate the Connect button on the selection text, disable the read
button, clear the characteristic list, and cascade into onServiceSelected
when services are discovered. -/
def deviceSelectionChanged (st : MainWindowState) (selectedCount : Nat) (currentText : Str) :
    MainWindowState :=
  let enableConnect := decide (0 < selectedCount)
      && !strContains currentText (strOf "No")
      && !strContains currentText (strOf "found")
  let st := { st with connectButtonEnabled := enableConnect
                    , readCharButtonEnabled := false
                    , characteristicList := [] }
  match st.leController with
  | some ctrl =>
    if ctrl.ctrlState = ControllerState.DiscoveredState then
      onServiceSelected st selectedCount currentText
    else st
  | none => st

/-- MainWindow::serviceDetailsDiscovered: when the service reaches
RemoteServiceDiscovered, rebuild the characteristic list and issue the
read/subscribe requests.  `svc` is the sender service. -/
def serviceDetailsDiscovered (st : MainWindowState) (svc : ServiceObj)
    (newState : ServiceState) : MainWindowState :=
  if newState = ServiceState.RemoteServiceDiscovered then
    let st := { st with statusLabel := strOf "Status: Characteristics discovered for "
                    ++ svc.serviceUuid ++ strOf "."
                      , characteristicList := []
                      , m_characteristicItems := [] }
    svc.characteristics.foldl (perCharacteristic svc.serviceUuid) st
  else st

/-- The value description built by characteristicChanged/characteristicRead:
`"  Char: %1 (%2)\n  Value: %3 (Hex) / %4"` with the value as uppercase hex
and as UTF-8 decoded text (`fromUtf8` is the toolkit's QString::fromUtf8). -/
def charValueText (fromUtf8 : Bytes → Str) (c : Characteristic) (v : Bytes) : Str :=
  strOf "  Char: " ++ (if c.name.isEmpty then c.uuid else c.name)
    ++ strOf " (" ++ c.uuid ++ strOf ")\n  Value: "
    ++ strUpper (bytesToHex v) ++ strOf " (Hex) / " ++ fromUtf8 v

/-- MainWindow::characteristicChanged: when the characteristic is a key of
the item map, rewrite that item's text. -/
def characteristicChanged (fromUtf8 : Bytes → Str) (st : MainWindowState)
    (c : Characteristic) (newValue : Bytes) : MainWindowState :=
  match charMapLookup st.m_characteristicItems c with
  | some itemId =>
    { st with characteristicList := st.characteristicList.map (fun it =>
        if it.id = itemId then ⟨it.id, charValueText fromUtf8 c newValue⟩ else it) }
  | none => st

/-- MainWindow::characteristicRead: same update as characteristicChanged. -/
def characteristicRead (fromUtf8 : Bytes → Str) (st : MainWindowState)
    (c : Characteristic) (value : Bytes) : MainWindowState :=
  match charMapLookup st.m_characteristicItems c with
  | some itemId =>
    { st with characteristicList := st.characteristicList.map (fun it =>
        if it.id = itemId then ⟨it.id, charValueText fromUtf8 c value⟩ else it) }
  | none => st

/-- MainWindow::serviceError: only the status label is written; `svcUuid` is
the sender service's UUID. -/
def serviceError (st : MainWindowState) (svcUuid : Uuid) (e : ServiceError) :
    MainWindowState :=
  { st with statusLabel := strOf "Status: Service " ++ svcUuid ++ strOf " Error "
      ++ natToStr (serviceErrorCode e) }

/-- A concrete stand-in for QString::fromUtf8, used to instantiate theorems:
decodes each byte as a character (exact on ASCII payloads). -/
def asciiDecode : Bytes → Str := fun bs => bs.map Char.ofNat

/-- The stack requests issued for one characteristic by the loop body
`perCharacteristic`: a read when readable, then a CCCD write when
notify/indicate is supported and the descriptor is valid. -/
def charRequests (u : Uuid) (c : Characteristic) : List Request :=
  (if hasProp c propRead then [Request.readCharacteristic u c] else [])
    ++ (if hasNotifyOrIndicate c && c.cccdValid then
          [Request.writeDescriptor u c cccdEnableNotifications] else [])

-- Concrete sample data used to instantiate the theorems below.

/-- A cached service object in RemoteService (not yet discovered) state. -/
def svcCached : ServiceObj := ⟨strOf "u1", ServiceState.RemoteService, []⟩

/-- A controller that has finished service discovery and knows `svcCached`. -/
def ctrlDone : Controller := ⟨ControllerState.DiscoveredState, [svcCached]⟩

/-- A window state in which service `u1` is already stored in m_services. -/
def stCachedSvc : MainWindowState :=
  { initState with leController := some ctrlDone
                 , m_services := [(strOf "u1", svcCached)] }

/-- A readable characteristic named "Weight". -/
def charWeight : Characteristic := ⟨strOf "uc1", strOf "Weight", propRead, false⟩

/-- A window state whose characteristic-item map binds `charWeight` to item 5. -/
def stWithItem : MainWindowState :=
  { initState with m_characteristicItems := [(charWeight, 5)]
                 , characteristicList := [⟨5, strOf "old"⟩] }

/-- A nameless characteristic with Read and Notify and a valid CCCD. -/
def charRN : Characteristic := ⟨strOf "ub", [], propRead + propNotify, true⟩

/-- A discovered service holding `charRN`. -/
def svcRN : ServiceObj := ⟨strOf "svcu", ServiceState.RemoteServiceDiscovered, [charRN]⟩

/-- Two distinct characteristics sharing a UUID (different names/properties). -/
def charDupA : Characteristic := ⟨strOf "dupu", strOf "a", propRead, false⟩
def charDupB : Characteristic := ⟨strOf "dupu", strOf "b", propNotify, true⟩

/-- A discovered device whose address matches no selection text used below. -/
def devOther : DeviceInfo := ⟨strOf "Other", strOf "CC:DD", 1, true⟩

/-- A nameless BLE device. -/
def devNameless : DeviceInfo := ⟨[], strOf "AA:BB", 1, true⟩

/-- A classic (non-LE) device. -/
def devClassic : DeviceInfo := ⟨strOf "X", strOf "EE:FF", 2, true⟩

/-! ## Helper lemmas -/

theorem strLt_irrefl (u : Str) : strLt u u = false := by
  induction u with
  | nil => rfl
  | cons x xs ih => simp [strLt, ih]

theorem charEquiv_of_uuid_eq (c d : Characteristic) (h : c.uuid = d.uuid) :
    charEquiv c d = true := by
  simp [charEquiv, charLt, h, strLt_irrefl]

theorem charEquiv_congr_left (c d k : Characteristic) (h : c.uuid = d.uuid) :
    charEquiv c k = charEquiv d k := by
  simp [charEquiv, charLt, h]

theorem perChar_requests (u : Uuid) (st : MainWindowState) (c : Characteristic) :
    (perCharacteristic u st c).requests = st.requests ++ charRequests u c := by
  simp only [perCharacteristic, charRequests]
  split <;> split <;> simp

theorem perChar_charList (u : Uuid) (st : MainWindowState) (c : Characteristic) :
    (perCharacteristic u st c).characteristicList
      = st.characteristicList ++ [⟨st.nextItemId, charInfoText c⟩] := by
  simp only [perCharacteristic]
  split <;> split <;> rfl

theorem perChar_connect (u : Uuid) (st : MainWindowState) (c : Characteristic) :
    (perCharacteristic u st c).connectButtonEnabled = st.connectButtonEnabled := by
  simp only [perCharacteristic]
  split <;> split <;> rfl

theorem perChar_services (u : Uuid) (st : MainWindowState) (c : Characteristic) :
    (perCharacteristic u st c).m_services = st.m_services := by
  simp only [perCharacteristic]
  split <;> split <;> rfl

theorem foldl_perChar_requests (u : Uuid) (cs : List Characteristic) (st : MainWindowState) :
    (cs.foldl (perCharacteristic u) st).requests = st.requests ++ cs.flatMap (charRequests u) := by
  induction cs generalizing st with
  | nil => simp
  | cons c rest ih =>
    simp only [List.foldl_cons, List.flatMap_cons]
    rw [ih, perChar_requests, List.append_assoc]

theorem foldl_perChar_texts (u : Uuid) (cs : List Characteristic) (st : MainWindowState) :
    (cs.foldl (perCharacteristic u) st).characteristicList.map ListItem.text
      = st.characteristicList.map ListItem.text ++ cs.map charInfoText := by
  induction cs generalizing st with
  | nil => simp
  | cons c rest ih =>
    simp only [List.foldl_cons, List.map_cons]
    rw [ih, perChar_charList]
    simp

theorem foldl_perChar_connect (u : Uuid) (cs : List Characteristic) (st : MainWindowState) :
    (cs.foldl (perCharacteristic u) st).connectButtonEnabled = st.connectButtonEnabled := by
  induction cs generalizing st with
  | nil => rfl
  | cons c rest ih =>
    simp only [List.foldl_cons]
    rw [ih, perChar_connect]

theorem foldl_perChar_services (u : Uuid) (cs : List Characteristic) (st : MainWindowState) :
    (cs.foldl (perCharacteristic u) st).m_services = st.m_services := by
  induction cs generalizing st with
  | nil => rfl
  | cons c rest ih =>
    simp only [List.foldl_cons]
    rw [ih, perChar_services]

theorem discoverDetails_notin_charRequests (u v : Uuid) (c : Characteristic) :
    Request.discoverDetails v ∉ charRequests u c := by
  simp only [charRequests]
  split <;> split <;> simp

theorem onServiceSelected_connect (st : MainWindowState) (n : Nat) (t : Str) :
    (onServiceSelected st n t).connectButtonEnabled = st.connectButtonEnabled := by
  unfold onServiceSelected
  cases st.leController with
  | none => rfl
  | some ctrl =>
    simp only []
    split
    · rfl
    · cases svcMapLookup st.m_services (extractUuid t) with
      | some svc =>
        simp only []
        split
        · rw [foldl_perChar_connect]
        · rfl
      | none =>
        simp only []
        cases createServiceObject ctrl (extractUuid t) <;> rfl

theorem foldl_perChar_mem_text (u : Uuid) (cs : List Characteristic) (st : MainWindowState)
    (c : Characteristic) (hc : c ∈ cs) :
    ∃ it ∈ (cs.foldl (perCharacteristic u) st).characteristicList,
      it.text = charInfoText c := by
  have hmem : charInfoText c
      ∈ (cs.foldl (perCharacteristic u) st).characteristicList.map ListItem.text := by
    rw [foldl_perChar_texts]
    exact List.mem_append_right _ (List.mem_map_of_mem _ hc)
  obtain ⟨it, hit, heq⟩ := List.mem_map.mp hmem
  exact ⟨it, hit, heq⟩

theorem foldl_perChar_mem_request (u : Uuid) (cs : List Characteristic) (st : MainWindowState)
    (c : Characteristic) (hc : c ∈ cs) (r : Request) (hr : r ∈ charRequests u c) :
    r ∈ (cs.foldl (perCharacteristic u) st).requests := by
  rw [foldl_perChar_requests]
  exact List.mem_append_right _ (List.mem_flatMap.mpr ⟨c, hc, hr⟩)

theorem onServiceSelected_cached (st : MainWindowState) (n : Nat) (t : Str)
    (ctrl : Controller) (svc : ServiceObj)
    (hctrl : st.leController = some ctrl)
    (hstate : ctrl.ctrlState = ControllerState.DiscoveredState)
    (hn : ¬ n = 0)
    (hl : svcMapLookup st.m_services (extractUuid t) = some svc) :
    onServiceSelected st n t
      = (if svc.svcState = ServiceState.RemoteServiceDiscovered then
          svc.characteristics.foldl (perCharacteristic svc.serviceUuid)
            { st with m_currentService := some (extractUuid t)
                    , characteristicList := []
                    , m_characteristicItems := [] }
        else { st with m_currentService := some (extractUuid t) }) := by
  unfold onServiceSelected
  rw [hctrl]
  simp [hn, hstate, hl]

theorem onServiceSelected_fresh (st : MainWindowState) (n : Nat) (t : Str)
    (ctrl : Controller) (svc : ServiceObj)
    (hctrl : st.leController = some ctrl)
    (hstate : ctrl.ctrlState = ControllerState.DiscoveredState)
    (hn : ¬ n = 0)
    (hl : svcMapLookup st.m_services (extractUuid t) = none)
    (hcr : createServiceObject ctrl (extractUuid t) = some svc) :
    onServiceSelected st n t
      = { st with m_services := svcMapInsert st.m_services (extractUuid t) svc
                , m_currentService := some (extractUuid t)
                , characteristicList := []
                , m_characteristicItems := []
                , statusLabel := strOf "Status: Discovering characteristics for "
                    ++ t ++ strOf "..."
                , requests := st.requests ++ [Request.discoverDetails (extractUuid t)] } := by
  unfold onServiceSelected
  rw [hctrl]
  simp [hn, hstate, hl, hcr]

theorem charMap_lookup_insert_insert (m : CharMap) (c d : Characteristic) (i j : Nat)
    (h : c.uuid = d.uuid) :
    charMapLookup (charMapInsert (charMapInsert m c i) d j) c = some j := by
  induction m with
  | nil =>
    simp [charMapInsert, charEquiv_of_uuid_eq d c h.symm, charMapLookup,
      charEquiv_of_uuid_eq c c rfl]
  | cons p rest ih =>
    obtain ⟨q, w⟩ := p
    cases hq : charEquiv c q with
    | true =>
      have hdq : charEquiv d q = true := by
        rw [← charEquiv_congr_left c d q h]; exact hq
      simp [charMapInsert, hq, hdq, charMapLookup]
    | false =>
      have hdq : charEquiv d q = false := by
        rw [← charEquiv_congr_left c d q h]; exact hq
      simp [charMapInsert, hq, hdq, charMapLookup, ih]

theorem charMap_insert_insert_length (m : CharMap) (c d : Characteristic) (i j : Nat)
    (h : c.uuid = d.uuid) :
    (charMapInsert (charMapInsert m c i) d j).length = (charMapInsert m c i).length := by
  induction m with
  | nil => simp [charMapInsert, charEquiv_of_uuid_eq d c h.symm]
  | cons p rest ih =>
    obtain ⟨q, w⟩ := p
    cases hq : charEquiv c q with
    | true =>
      have hdq : charEquiv d q = true := by
        rw [← charEquiv_congr_left c d q h]; exact hq
      simp [charMapInsert, hq, hdq]
    | false =>
      have hdq : charEquiv d q = false := by
        rw [← charEquiv_congr_left c d q h]; exact hq
      simp [charMapInsert, hq, hdq, ih]

/-! ## Claims -/

/-- C1 counterexample: the service-error callback surfaces nothing into a
message box — on a fresh window state an OperationError from a service leaves
the dialog trace empty and only writes the error code into the status
label. -/
theorem serviceError_shows_no_dialog_cex :
    (serviceError initState (strOf "u") ServiceError.OperationError).dialogs = []
    ∧ (serviceError initState (strOf "u") ServiceError.OperationError).statusLabel
        = strOf "Status: Service u Error 1" := by
  exact ⟨rfl, by decide⟩

/-- C1 (amended): the discovery-agent and controller error handlers surface
the vendor error code into a critical message box and otherwise only reset UI
state (buttons, lists) and tear down the session; the service error handler
surfaces the error code only into the status label and changes nothing
else. -/
theorem error_handlers_surface_errors (st : MainWindowState) (e1 : ScanError)
    (e2 : ControllerError) (u : Uuid) (e3 : ServiceError) :
    scanError st e1
      = { st with statusLabel := strOf "Status: Scan Error!"
                , scanButtonEnabled := true
                , connectButtonEnabled := false
                , readCharButtonEnabled := false
                , dialogs := st.dialogs
                    ++ [⟨DialogKind.critical, strOf "Bluetooth Error", scanErrorText e1⟩] }
    ∧ controllerError st e2
      = { st with statusLabel := strOf "Status: Controller Error!"
                , connectButtonEnabled := true
                , scanButtonEnabled := true
                , readCharButtonEnabled := false
                , leController := none
                , m_services := []
                , m_serviceUuids := []
                , m_characteristicItems := []
                , m_currentService := none
                , deviceList := []
                , characteristicList := []
                , dialogs := st.dialogs
                    ++ [⟨DialogKind.critical, strOf "BLE Controller Error", controllerErrorText e2⟩] }
    ∧ serviceError st u e3
      = { st with statusLabel := strOf "Status: Service " ++ u ++ strOf " Error "
            ++ natToStr (serviceErrorCode e3) }
    ∧ (serviceError st u e3).dialogs = st.dialogs := by
  exact ⟨rfl, rfl, rfl, rfl⟩

/-- C2: on characteristicChanged and characteristicRead, when the
characteristic is a key of the characteristic-item map the bound list item's
text is rewritten to the value description (uppercase hex plus UTF-8 decoded
text); when it is not a key, the state — in particular the list — is
untouched. -/
theorem characteristic_events_update_item (fromUtf8 : Bytes → Str)
    (st : MainWindowState) (c : Characteristic) (v : Bytes) :
    (∀ i, charMapLookup st.m_characteristicItems c = some i →
      (characteristicChanged fromUtf8 st c v).characteristicList
        = st.characteristicList.map (fun it =>
            if it.id = i then ⟨it.id, charValueText fromUtf8 c v⟩ else it)
      ∧ (characteristicRead fromUtf8 st c v).characteristicList
        = st.characteristicList.map (fun it =>
            if it.id = i then ⟨it.id, charValueText fromUtf8 c v⟩ else it))
    ∧ (charMapLookup st.m_characteristicItems c = none →
      characteristicChanged fromUtf8 st c v = st
      ∧ characteristicRead fromUtf8 st c v = st) := by
  constructor
  · intro i h
    constructor <;> simp [characteristicChanged, characteristicRead, h]
  · intro h
    constructor <;> simp [characteristicChanged, characteristicRead, h]

theorem characteristic_events_update_item_witness :
    (characteristicChanged asciiDecode stWithItem charWeight [72]).characteristicList
      = stWithItem.characteristicList.map (fun it =>
          if it.id = 5 then ⟨it.id, charValueText asciiDecode charWeight [72]⟩ else it)
    ∧ (characteristicRead asciiDecode stWithItem charWeight [72]).characteristicList
      = stWithItem.characteristicList.map (fun it =>
          if it.id = 5 then ⟨it.id, charValueText asciiDecode charWeight [72]⟩ else it) :=
  (characteristic_events_update_item asciiDecode stWithItem charWeight [72]).1 5 (by decide)

/-- C4: deviceDiscovered adds an entry exactly when the device's core
configurations include the Low Energy configuration; the entry text is the
device name — "(Unknown BLE Device)" when the name is empty — followed by the
address in parentheses. -/
theorem deviceDiscovered_lists_le_devices (st : MainWindowState) (d : DeviceInfo) :
    (Nat.land d.coreConfigurations LowEnergyCoreConfiguration ≠ 0 →
      (deviceDiscovered st d).deviceList
        = st.deviceList ++ [⟨st.nextItemId, deviceDisplayText d⟩])
    ∧ (Nat.land d.coreConfigurations LowEnergyCoreConfiguration = 0 →
      deviceDiscovered st d = st)
    ∧ (d.name.isEmpty = true →
      deviceDisplayText d = strOf "(Unknown BLE Device)" ++ strOf " (" ++ d.address ++ strOf ")")
    ∧ (d.name.isEmpty = false →
      deviceDisplayText d = d.name ++ strOf " (" ++ d.address ++ strOf ")") := by
  refine ⟨fun h => ?_, fun h => ?_, fun h => ?_, fun h => ?_⟩
  · simp [deviceDiscovered, addDeviceItem, h]
  · simp [deviceDiscovered, h]
  · simp [deviceDisplayText, h]
  · simp [deviceDisplayText, h]

theorem deviceDiscovered_lists_le_devices_witness :
    (deviceDiscovered initState devNameless).deviceList
      = initState.deviceList ++ [⟨initState.nextItemId, deviceDisplayText devNameless⟩]
    ∧ deviceDisplayText devNameless
      = strOf "(Unknown BLE Device)" ++ strOf " (" ++ devNameless.address ++ strOf ")"
    ∧ deviceDiscovered initState devClassic = initState :=
  ⟨(deviceDiscovered_lists_le_devices initState devNameless).1 (by decide),
   (deviceDiscovered_lists_le_devices initState devNameless).2.2.1 (by decide),
   (deviceDiscovered_lists_le_devices initState devClassic).2.1 (by decide)⟩

/-- C5: scanError maps InputOutputError, PoweredOffError and
MissingPermissionsError to their dedicated texts and every other
discovery-agent error value to "Unknown error.", shows the text in a critical
dialog, re-enables the scan button and disables the connect and read
buttons. -/
theorem scanError_maps_and_resets (st : MainWindowState) (e : ScanError) :
    (scanError st e).dialogs
      = st.dialogs ++ [⟨DialogKind.critical, strOf "Bluetooth Error", scanErrorText e⟩]
    ∧ scanErrorText ScanError.InputOutputError = strOf "I/O Error (check permissions/hardware)."
    ∧ scanErrorText ScanError.PoweredOffError = strOf "Bluetooth is powered off."
    ∧ scanErrorText ScanError.MissingPermissionsError = strOf "Missing Bluetooth permissions."
    ∧ scanErrorText ScanError.NoError = strOf "Unknown error."
    ∧ scanErrorText ScanError.InvalidBluetoothAdapterError = strOf "Unknown error."
    ∧ scanErrorText ScanError.UnsupportedPlatformError = strOf "Unknown error."
    ∧ scanErrorText ScanError.UnsupportedDiscoveryMethod = strOf "Unknown error."
    ∧ scanErrorText ScanError.LocationServiceTurnedOffError = strOf "Unknown error."
    ∧ scanErrorText ScanError.UnknownError = strOf "Unknown error."
    ∧ (scanError st e).scanButtonEnabled = true
    ∧ (scanError st e).connectButtonEnabled = false
    ∧ (scanError st e).readCharButtonEnabled = false := by
  exact ⟨rfl, rfl, rfl, rfl, rfl, rfl, rfl, rfl, rfl, rfl, rfl, rfl, rfl⟩

/-- C7: both session-ending stack events — the disconnected signal and every
controller error — return the window to the scan-ready state: no controller,
empty service map, service-UUID list and characteristic-item map, no current
service, both list widgets cleared, scan enabled and read disabled. -/
theorem session_end_resets_state (st : MainWindowState) (e : ControllerError) :
    (deviceDisconnected st).leController = none
    ∧ (deviceDisconnected st).m_services = []
    ∧ (deviceDisconnected st).m_serviceUuids = []
    ∧ (deviceDisconnected st).m_characteristicItems = []
    ∧ (deviceDisconnected st).m_currentService = none
    ∧ (deviceDisconnected st).deviceList = []
    ∧ (deviceDisconnected st).characteristicList = []
    ∧ (deviceDisconnected st).scanButtonEnabled = true
    ∧ (deviceDisconnected st).readCharButtonEnabled = false
    ∧ (controllerError st e).leController = none
    ∧ (controllerError st e).m_services = []
    ∧ (controllerError st e).m_serviceUuids = []
    ∧ (controllerError st e).m_characteristicItems = []
    ∧ (controllerError st e).m_currentService = none
    ∧ (controllerError st e).deviceList = []
    ∧ (controllerError st e).characteristicList = []
    ∧ (controllerError st e).scanButtonEnabled = true
    ∧ (controllerError st e).readCharButtonEnabled = false := by
  exact ⟨rfl, rfl, rfl, rfl, rfl, rfl, rfl, rfl, rfl, rfl, rfl, rfl, rfl, rfl, rfl, rfl,
    rfl, rfl⟩

/-- C8: the map-key order on characteristics compares UUIDs only, so two
characteristics with equal UUIDs are one key: inserting an item for the
second replaces the association of the first (same value slot, no new
binding). -/
theorem charMap_key_is_uuid_only (m : CharMap) (c d : Characteristic) (i j : Nat)
    (h : c.uuid = d.uuid) :
    charEquiv c d = true
    ∧ charMapLookup (charMapInsert (charMapInsert m c i) d j) c = some j
    ∧ (charMapInsert (charMapInsert m c i) d j).length = (charMapInsert m c i).length :=
  ⟨charEquiv_of_uuid_eq c d h,
   charMap_lookup_insert_insert m c d i j h,
   charMap_insert_insert_length m c d i j h⟩

theorem charMap_key_is_uuid_only_witness :
    charEquiv charDupA charDupB = true
    ∧ charMapLookup (charMapInsert (charMapInsert [] charDupA 1) charDupB 2) charDupA = some 2
    ∧ (charMapInsert (charMapInsert [] charDupA 1) charDupB 2).length
        = (charMapInsert [] charDupA 1).length :=
  charMap_key_is_uuid_only [] charDupA charDupB 1 2 rfl

/-- C3: when a service reaches RemoteServiceDiscovered, every characteristic
of the service gets a list item with its description; a read request is
issued for every readable characteristic; and for every characteristic with
Notify or Indicate and a valid CCCD, the value fromHex("0100") is written to
that descriptor. -/
theorem serviceDetails_actions (st : MainWindowState) (svc : ServiceObj)
    (c : Characteristic) (hc : c ∈ svc.characteristics) :
    (∃ it ∈ (serviceDetailsDiscovered st svc
        ServiceState.RemoteServiceDiscovered).characteristicList,
      it.text = charInfoText c)
    ∧ (hasProp c propRead = true →
        Request.readCharacteristic svc.serviceUuid c
          ∈ (serviceDetailsDiscovered st svc ServiceState.RemoteServiceDiscovered).requests)
    ∧ (hasNotifyOrIndicate c = true → c.cccdValid = true →
        Request.writeDescriptor svc.serviceUuid c cccdEnableNotifications
          ∈ (serviceDetailsDiscovered st svc ServiceState.RemoteServiceDiscovered).requests) := by
  have hif : serviceDetailsDiscovered st svc ServiceState.RemoteServiceDiscovered
      = svc.characteristics.foldl (perCharacteristic svc.serviceUuid)
          { st with statusLabel := strOf "Status: Characteristics discovered for "
                        ++ svc.serviceUuid ++ strOf "."
                  , characteristicList := []
                  , m_characteristicItems := [] } := by
    simp [serviceDetailsDiscovered]
  rw [hif]
  refine ⟨foldl_perChar_mem_text _ _ _ c hc, fun hr => ?_, fun hni hcv => ?_⟩
  · refine foldl_perChar_mem_request _ _ _ c hc _ ?_
    unfold charRequests
    refine List.mem_append_left _ ?_
    simp [hr]
  · refine foldl_perChar_mem_request _ _ _ c hc _ ?_
    unfold charRequests
    refine List.mem_append_right _ ?_
    simp [hni, hcv]

theorem serviceDetails_actions_witness :
    (∃ it ∈ (serviceDetailsDiscovered initState svcRN
        ServiceState.RemoteServiceDiscovered).characteristicList,
      it.text = charInfoText charRN)
    ∧ Request.readCharacteristic svcRN.serviceUuid charRN
        ∈ (serviceDetailsDiscovered initState svcRN ServiceState.RemoteServiceDiscovered).requests
    ∧ Request.writeDescriptor svcRN.serviceUuid charRN cccdEnableNotifications
        ∈ (serviceDetailsDiscovered initState svcRN ServiceState.RemoteServiceDiscovered).requests := by
  have h := serviceDetails_actions initState svcRN charRN (by decide)
  exact ⟨h.1, h.2.1 (by decide), h.2.2 (by decide) (by decide)⟩

/-- C6 counterexample: stack-supplied service objects ARE stored for reuse —
with service u1 already in m_services, selecting it issues no request at all
to the stack (in particular no fresh discoverDetails); the stored object is
reused as the current service. -/
theorem cached_service_not_refetched_cex :
    (onServiceSelected stCachedSvc 1 (strOf "u1")).requests = []
    ∧ (onServiceSelected stCachedSvc 1 (strOf "u1")).m_currentService = some (strOf "u1")
    ∧ svcMapContains stCachedSvc.m_services (strOf "u1") = true := by
  decide

/-- C6 (amended): service objects obtained from the stack are cached in
m_services keyed by UUID.  Selecting a service whose UUID is already in the
map reuses the stored object and issues no new discoverDetails request; only
when the UUID is absent is a service object created, stored, and its details
requested from the stack. -/
theorem service_object_caching (st : MainWindowState) (n : Nat) (t : Str)
    (ctrl : Controller)
    (hctrl : st.leController = some ctrl)
    (hstate : ctrl.ctrlState = ControllerState.DiscoveredState)
    (hn : 0 < n) :
    (∀ svc, svcMapLookup st.m_services (extractUuid t) = some svc →
      (onServiceSelected st n t).m_services = st.m_services
      ∧ (∀ v, Request.discoverDetails v ∈ (onServiceSelected st n t).requests →
          Request.discoverDetails v ∈ st.requests))
    ∧ (∀ svc, svcMapLookup st.m_services (extractUuid t) = none →
        createServiceObject ctrl (extractUuid t) = some svc →
        (onServiceSelected st n t).requests
          = st.requests ++ [Request.discoverDetails (extractUuid t)]
        ∧ (onServiceSelected st n t).m_services
          = svcMapInsert st.m_services (extractUuid t) svc) := by
  have hn0 : ¬ n = 0 := Nat.pos_iff_ne_zero.mp hn
  constructor
  · intro svc hl
    rw [onServiceSelected_cached st n t ctrl svc hctrl hstate hn0 hl]
    by_cases hd : svc.svcState = ServiceState.RemoteServiceDiscovered
    · rw [if_pos hd]
      refine ⟨foldl_perChar_services _ _ _, fun v hv => ?_⟩
      rw [foldl_perChar_requests] at hv
      rcases List.mem_append.mp hv with h | h
      · exact h
      · obtain ⟨c, _, hin⟩ := List.mem_flatMap.mp h
        exact absurd hin (discoverDetails_notin_charRequests _ v c)
    · rw [if_neg hd]
      exact ⟨rfl, fun v hv => hv⟩
  · intro svc hl hcr
    rw [onServiceSelected_fresh st n t ctrl svc hctrl hstate hn0 hl hcr]
    exact ⟨rfl, rfl⟩

theorem service_object_caching_witness :
    (onServiceSelected stCachedSvc 1 (strOf "u1")).m_services = stCachedSvc.m_services := by
  have h := service_object_caching stCachedSvc 1 (strOf "u1") ctrlDone rfl rfl (by decide)
  exact (h.1 svcCached (by decide)).1

/-- C9: after a selection change in the device list, Connect is enabled iff
some item is selected and the current item's text contains neither "No" nor
"found"; hence any device whose displayed text contains "No" leaves Connect
disabled when selected. -/
theorem connect_button_gating (st : MainWindowState) (n : Nat) (t : Str) :
    ((deviceSelectionChanged st n t).connectButtonEnabled = true
      ↔ 0 < n ∧ strContains t (strOf "No") = false ∧ strContains t (strOf "found") = false)
    ∧ (strContains t (strOf "No") = true →
        (deviceSelectionChanged st n t).connectButtonEnabled = false) := by
  have hmain : (deviceSelectionChanged st n t).connectButtonEnabled
      = (decide (0 < n) && !strContains t (strOf "No") && !strContains t (strOf "found")) := by
    simp only [deviceSelectionChanged]
    cases hc : st.leController with
    | none => simp [hc]
    | some ctrl =>
      by_cases hd : ctrl.ctrlState = ControllerState.DiscoveredState
      · simp [hc, hd, onServiceSelected_connect]
      · simp [hc, hd]
  constructor
  · rw [hmain]
    constructor
    · intro h
      simp only [Bool.and_eq_true, decide_eq_true_eq, Bool.not_eq_true'] at h
      exact ⟨h.1.1, h.1.2, h.2⟩
    · rintro ⟨h1, h2, h3⟩
      simp [h1, h2, h3]
  · intro h
    rw [hmain, h]
    simp

theorem connect_button_gating_witness :
    (deviceSelectionChanged initState 1 (strOf "Nordic (AA:BB)")).connectButtonEnabled
      = false :=
  (connect_button_gating initState 1 (strOf "Nordic (AA:BB)")).2 (by decide)

/-- C10: connectToDevice with nothing selected, or with a selection whose
parsed address matches no discovered device, shows a dialog and returns:
the controller, the service map, both list widgets and the request trace are
unchanged. -/
theorem connect_failure_paths (st : MainWindowState) (n : Nat) (t : Str)
    (devs : List DeviceInfo) (cc : Option Controller) :
    (n = 0 →
      (connectToDevice st n t devs cc).dialogs
        = st.dialogs ++ [⟨DialogKind.warning, strOf "No Device Selected",
            strOf "Please select a device from the list to connect."⟩]
      ∧ (connectToDevice st n t devs cc).leController = st.leController
      ∧ (connectToDevice st n t devs cc).m_services = st.m_services
      ∧ (connectToDevice st n t devs cc).deviceList = st.deviceList
      ∧ (connectToDevice st n t devs cc).characteristicList = st.characteristicList
      ∧ (connectToDevice st n t devs cc).requests = st.requests)
    ∧ (0 < n → (∀ d ∈ devs, d.address ≠ parseAddress t) →
      (connectToDevice st n t devs cc).dialogs
        = st.dialogs ++ [⟨DialogKind.critical, strOf "Error",
            strOf "Could not find selected device information."⟩]
      ∧ (connectToDevice st n t devs cc).leController = st.leController
      ∧ (connectToDevice st n t devs cc).m_services = st.m_services
      ∧ (connectToDevice st n t devs cc).deviceList = st.deviceList
      ∧ (connectToDevice st n t devs cc).characteristicList = st.characteristicList
      ∧ (connectToDevice st n t devs cc).requests = st.requests) := by
  constructor
  · intro h
    subst h
    simp [connectToDevice, showDialog]
  · intro hn hnone
    have hn0 : ¬ n = 0 := Nat.pos_iff_ne_zero.mp hn
    have hfind : devs.find? (fun d => d.address == parseAddress t) = none := by
      rw [List.find?_eq_none]
      intro d hd
      simpa using hnone d hd
    simp [connectToDevice, hn0, findDevice, hfind, showDialog, invalidDevice]

theorem connect_failure_paths_witness :
    ((connectToDevice initState 0 [] [devOther] none).dialogs
        = initState.dialogs ++ [⟨DialogKind.warning, strOf "No Device Selected",
            strOf "Please select a device from the list to connect."⟩]
      ∧ (connectToDevice initState 0 [] [devOther] none).leController
          = initState.leController
      ∧ (connectToDevice initState 0 [] [devOther] none).m_services
          = initState.m_services
      ∧ (connectToDevice initState 0 [] [devOther] none).deviceList
          = initState.deviceList
      ∧ (connectToDevice initState 0 [] [devOther] none).characteristicList
          = initState.characteristicList
      ∧ (connectToDevice initState 0 [] [devOther] none).requests
          = initState.requests)
    ∧ ((connectToDevice initState 1 (strOf "Scale (AA:BB)") [devOther] none).dialogs
        = initState.dialogs ++ [⟨DialogKind.critical, strOf "Error",
            strOf "Could not find selected device information."⟩]
      ∧ (connectToDevice initState 1 (strOf "Scale (AA:BB)") [devOther] none).leController
          = initState.leController
      ∧ (connectToDevice initState 1 (strOf "Scale (AA:BB)") [devOther] none).m_services
          = initState.m_services
      ∧ (connectToDevice initState 1 (strOf "Scale (AA:BB)") [devOther] none).deviceList
          = initState.deviceList
      ∧ (connectToDevice initState 1 (strOf "Scale (AA:BB)") [devOther] none).characteristicList
          = initState.characteristicList
      ∧ (connectToDevice initState 1 (strOf "Scale (AA:BB)") [devOther] none).requests
          = initState.requests) :=
  ⟨(connect_failure_paths initState 0 [] [devOther] none).1 rfl,
   (connect_failure_paths initState 1 (strOf "Scale (AA:BB)") [devOther] none).2
     (by decide) (by decide)⟩

end BLEScale
